import Mathlib

/-!
Shallow embedding of `src/get_current_week_events.py` (cmumaps-data-acquisitor).

Python values that flow through the script (results of `json.loads`, values
returned by `dict.get`, cookie strings, …) are modelled by the inductive
`Json` below, with Python `None` identified with JSON `null` (exactly what
`json.loads` produces).  Fallible Python operations (attribute access on a
non-dict, indexing an empty list, iterating a non-iterable, subtracting an
aware datetime from a naive one, …) are modelled in the `Except PyErr` monad;
a Python exception that the source does not catch shows up as `.error e`.
-/

/-- A Python exception class, as raised by the operations the script uses. -/
inductive PyErr where
  | attributeError
  | indexError
  | typeError
  | keyError
  | osError
  | fileNotFoundError (msg : String)
  | runtimeError (msg : String)
  deriving Repr, DecidableEq

/-- A Python value as produced by `json.loads` (ints only for numbers; the
responses and files handled by the script carry no floats that the logic
inspects).  Python `None` is `Json.null`. -/
inductive Json where
  | null
  | bool (b : Bool)
  | num (n : Int)
  | str (s : String)
  | arr (xs : List Json)
  | obj (kvs : List (String × Json))

namespace Json

/-- Python truthiness (`if x:`) of the values above: `None`, `False`, `0`,
`""`, `[]`, `{}` are falsy, everything else truthy. -/
def truthy : Json → Bool
  | .null => false
  | .bool b => b
  | .num n => n != 0
  | .str s => s != ""
  | .arr xs => !xs.isEmpty
  | .obj kvs => !kvs.isEmpty

/-- Key lookup in a dict built by `json.loads`: on duplicate keys the last
occurrence wins (as `json.loads` overwrites). -/
def lookup (kvs : List (String × Json)) (k : String) : Option Json :=
  (kvs.reverse.find? (fun kv => kv.1 == k)).map (·.2)

/-- Python `x.get(key, default)`: only dicts have `.get`; any other value
raises `AttributeError`. -/
def dictGetD (x : Json) (k : String) (dflt : Json) : Except PyErr Json :=
  match x with
  | .obj kvs => .ok ((lookup kvs k).getD dflt)
  | _ => .error .attributeError

/-- Python `x.get(key)` (default `None`). -/
def dictGet (x : Json) (k : String) : Except PyErr Json :=
  dictGetD x k .null

/-- Python `x[0]`: first element of a list, first character of a string
(`IndexError` when empty), `KeyError` for a dict without the key `0`,
`TypeError` for non-subscriptable values. -/
def index0 : Json → Except PyErr Json
  | .arr [] => .error .indexError
  | .arr (x :: _) => .ok x
  | .str s =>
      match s.data with
      | [] => .error .indexError
      | c :: _ => .ok (.str (String.mk [c]))
  | .obj _ => .error .keyError
  | _ => .error .typeError

/-- Python `for y in x:`: lists yield their elements, strings their
characters, dicts their keys; other values raise `TypeError`. -/
def pyIterate : Json → Except PyErr (List Json)
  | .arr xs => .ok xs
  | .str s => .ok (s.data.map (fun c => .str (String.mk [c])))
  | .obj kvs => .ok (kvs.map (fun kv => .str kv.1))
  | _ => .error .typeError

/-- Python `repr` of a value (restricted: strings are rendered between single
quotes without escaping, which is exact for the quote-free strings handled
here). -/
def pyRepr : Json → String
  | .null => "None"
  | .bool true => "True"
  | .bool false => "False"
  | .num n => toString n
  | .str s => "'" ++ s ++ "'"
  | .arr xs => "[" ++ String.intercalate ", " (xs.attach.map (fun x => pyRepr x.1)) ++ "]"
  | .obj kvs =>
      "\x7b" ++
        String.intercalate ", "
          (kvs.attach.map (fun kv => "'" ++ kv.1.1 ++ "': " ++ pyRepr kv.1.2)) ++
      "\x7d"
  decreasing_by
    all_goals simp_all [List.mem_attach]
    · have := List.sizeOf_lt_of_mem x.2
      omega
    · have h1 := List.sizeOf_lt_of_mem kv.2
      have h2 : sizeOf kv.1.2 < sizeOf kv.1 := by
        obtain ⟨a, b⟩ := kv.1
        simp
      omega

/-- Python `str(x)`: identity on strings, `repr` otherwise. -/
def pyStr : Json → String
  | .str s => s
  | x => pyRepr x

end Json

/-! ## Calendar arithmetic

Python `datetime.date` is modelled by its proleptic-Gregorian day number,
normalised so that 0001-01-01 is day 0 (hence `date.toordinal x - 1`); day 0
is a Monday, so Python's `date.weekday()` (Monday = 0) is plain `% 7`.
The conversions use the standard civil-calendar algorithms; `/` and `%` on
`Int` round toward negative infinity for the positive divisors involved,
matching Python's `//` and `%`. -/

/-- Day number (0001-01-01 = 0) of the civil date `y-m-d`. -/
def daysFromCivil (y m d : Int) : Int :=
  let y' := if m ≤ 2 then y - 1 else y
  let era := y' / 400
  let yoe := y' - era * 400
  let doy := (153 * (m + (if 2 < m then -3 else 9)) + 2) / 5 + d - 1
  let doe := yoe * 365 + yoe / 4 - yoe / 100 + doy
  era * 146097 + doe - 306

/-- Civil date `(y, m, d)` of a day number (inverse of `daysFromCivil`). -/
def civilFromDays (z : Int) : Int × Int × Int :=
  let z' := z + 306
  let era := z' / 146097
  let doe := z' - era * 146097
  let yoe := (doe - doe / 1460 + doe / 36524 - doe / 146096) / 365
  let y := yoe + era * 400
  let doy := doe - (365 * yoe + yoe / 4 - yoe / 100)
  let mp := (5 * doy + 2) / 153
  let d := doy - (153 * mp + 2) / 5 + 1
  let m := mp + (if mp < 10 then 3 else -9)
  (y + (if m ≤ 2 then 1 else 0), m, d)

/-- Python `date.weekday()`: Monday = 0, …, Sunday = 6. -/
def weekday (z : Int) : Int := z % 7

/-- Decimal rendering of a nonnegative number, left-padded with zeros to
width `w` (as Python `isoformat` renders year/month/day fields). -/
def padNum (w : Nat) (n : Int) : String :=
  let s := toString n.toNat
  String.mk (List.replicate (w - s.length) '0') ++ s

/-- Python `date.isoformat()`: `YYYY-MM-DD`. -/
def dateIso (z : Int) : String :=
  let c := civilFromDays z
  padNum 4 c.1 ++ "-" ++ padNum 2 c.2.1 ++ "-" ++ padNum 2 c.2.2

/-- `get_current_week_dates` (source lines 46–50): `today.weekday()` days are
subtracted from `today` to reach Monday, and the 7 dates from that Monday are
rendered with `isoformat`. `today` is the day number of `date.today()`. -/
def get_current_week_dates (today : Int) : List String :=
  let monday := today - weekday today
  (List.range 7).map (fun i : Nat => dateIso (monday + (i : Int)))

/-! ## Python datetimes

A `datetime` is its naive wall-clock reading in seconds since
0001-01-01T00:00:00 plus an optional `utcoffset` in seconds (`none` = naive,
`some _` = aware).  `datetime.fromisoformat` is modelled on the grammar the
script actually feeds it: `YYYY-MM-DD`, optionally followed by a `'T'` or
`' '` separator and `HH:MM` or `HH:MM:SS`, optionally followed by a
`±HH:MM` offset (fractional seconds are outside the model). -/

structure PyDatetime where
  seconds : Int
  tz : Option Int
  deriving Repr, DecidableEq

/-- Python datetime subtraction, in seconds: subtracting an aware datetime
from a naive one (or vice versa) raises `TypeError`. -/
def dtSub (a b : PyDatetime) : Except PyErr Int :=
  match a.tz, b.tz with
  | none, none => .ok (a.seconds - b.seconds)
  | some ta, some tb => .ok ((a.seconds - ta) - (b.seconds - tb))
  | _, _ => .error .typeError

def digitVal (c : Char) : Option Nat :=
  if c.isDigit then some (c.toNat - 48) else none

def twoDigits (a b : Char) : Option Nat := do
  let x ← digitVal a
  let y ← digitVal b
  pure (10 * x + y)

def fourDigits (a b c d : Char) : Option Nat := do
  let x ← twoDigits a b
  let y ← twoDigits c d
  pure (100 * x + y)

def isLeap (y : Int) : Bool :=
  (y % 4 == 0 && y % 100 != 0) || y % 400 == 0

def daysInMonth (y m : Int) : Int :=
  if m == 2 then (if isLeap y then 29 else 28)
  else if m == 4 || m == 6 || m == 9 || m == 11 then 30
  else 31

/-- Time-of-day part `HH:MM[:SS]`, returning the unconsumed suffix. -/
def parseTimePart : List Char → Option (Nat × Nat × Nat × List Char)
  | h1 :: h2 :: ':' :: m1 :: m2 :: rest => do
      let h ← twoDigits h1 h2
      let mi ← twoDigits m1 m2
      match rest with
      | ':' :: s1 :: s2 :: rest2 => do
          let s ← twoDigits s1 s2
          pure (h, mi, s, rest2)
      | _ => pure (h, mi, 0, rest)
  | _ => none

/-- Optional trailing UTC-offset part `±HH:MM`. -/
def parseOffsetPart : List Char → Option (Option Int)
  | [] => some none
  | sign :: h1 :: h2 :: ':' :: m1 :: m2 :: [] => do
      let h ← twoDigits h1 h2
      let mi ← twoDigits m1 m2
      if h ≤ 23 && mi ≤ 59 then
        let secs : Int := (h * 3600 + mi * 60 : Nat)
        if sign = '+' then some (some secs)
        else if sign = '-' then some (some (-secs))
        else none
      else none
  | _ => none

/-- `datetime.fromisoformat` on the grammar described above, reading the
argument as its character list; `none` models a raised `ValueError`. -/
def pyFromIso : List Char → Option PyDatetime
  | y1 :: y2 :: y3 :: y4 :: '-' :: m1 :: m2 :: '-' :: d1 :: d2 :: rest => do
      let y ← fourDigits y1 y2 y3 y4
      let m ← twoDigits m1 m2
      let d ← twoDigits d1 d2
      if 1 ≤ y && 1 ≤ m && m ≤ 12 && 1 ≤ d && (d : Int) ≤ daysInMonth y m then
        match rest with
        | [] => some ⟨daysFromCivil y m d * 86400, none⟩
        | sep :: timeRest =>
            if sep = 'T' || sep = ' ' then do
              let t ← parseTimePart timeRest
              let (h, mi, sec, offRest) := t
              if h ≤ 23 && mi ≤ 59 && sec ≤ 59 then do
                let off ← parseOffsetPart offRest
                some ⟨daysFromCivil y m d * 86400 + (h * 3600 + mi * 60 + sec : Nat), off⟩
              else none
            else none
      else none
  | _ => none

/-- `_parse_datetime` (source lines 53–60) on a string argument: a trailing
literal `"Z"` is rewritten to `"+00:00"` before `fromisoformat` (the
`value.endswith("Z")` test and the `value[:-1] + "+00:00"` slice are rendered
on the character list); any parse failure is caught and becomes `none`. -/
def _parse_datetime (value : String) : Option PyDatetime :=
  let cs := if value.data.getLast? = some 'Z'
            then value.data.dropLast ++ "+00:00".data
            else value.data
  pyFromIso cs

/-- `_parse_datetime` applied to an arbitrary `dict.get` result: on a
non-string the `value.endswith` call raises `AttributeError` inside the
function's catch-all `except`, so the function returns `None`. -/
def parseDatetimeJson : Json → Option PyDatetime
  | .str s => _parse_datetime s
  | _ => none

/-! ## Module constants (source lines 24–43) -/

def BUILDING_IDS : List String :=
  ["618852", "583845", "583852", "583841", "583837", "583840",
   "586114", "586120", "586116", "586124", "583865"]

def PREFERRED_COOKIE_KEY : String := "athletics"

def COOKIE_MAX_AGE_HOURS : Int := 12

def REQUEST_DELAY_SECONDS : ℚ := 1 / 2

/-! ## File states

The observable state of a JSON file on disk, as seen through
`path.exists()`, `path.read_text()` and `json.loads`. -/

inductive FileState where
  | absent                -- `path.exists()` is false
  | unreadable            -- exists, but `read_text()` raises `OSError`
  | notJson               -- reads fine, but `json.loads` raises `JSONDecodeError`
  | content (data : Json) -- `json.loads` succeeds with this value

/-- `_load_cookie_from_disk` (source lines 78–101).  `nowSecs` is the naive
wall-clock reading of `datetime.now()` at the moment of the call, in seconds
on the same scale as `PyDatetime.seconds`.  Only `JSONDecodeError` is caught
around the read, and the whole body has no other handler, so an unreadable
file, a non-dict JSON document, or an aware stored timestamp surface as
raised exceptions (`.error`).  The float comparison
`total_seconds() / 3600 < 12` is rendered as the exact integer comparison
`diff < 12 * 3600`, which agrees with it on whole-second datetimes. -/
def _load_cookie_from_disk (file : FileState) (nowSecs : Int) :
    Except PyErr (Option Json) :=
  match file with
  | .absent => .ok none
  | .unreadable => .error .osError
  | .notJson => .ok none
  | .content data => do
      let extracted_at ← data.dictGet "extracted_at"
      let cookie ← data.dictGet "WSSESSIONID"
      if !cookie.truthy || !extracted_at.truthy then
        pure none
      else
        match parseDatetimeJson extracted_at with
        | none => pure none
        | some extracted_dt => do
            let diff ← dtSub ⟨nowSecs, none⟩ extracted_dt
            if diff < COOKIE_MAX_AGE_HOURS * 3600 then
              pure (some cookie)
            else
              pure none

/-- The whitespace characters Python `str.strip()` removes (ASCII subset of
Python's unicode whitespace, which covers the cookie strings handled here). -/
def isPySpace (c : Char) : Bool :=
  c = ' ' || c = '\t' || c = '\n' || c = '\r' || c = '\x0b' || c = '\x0c'

/-- Python `s.strip()` on a character list. -/
def pyStrip (cs : List Char) : List Char :=
  ((cs.dropWhile isPySpace).reverse.dropWhile isPySpace).reverse

/-- Python `s.split(sep)` for a one-character separator (`"a;;b"` splits into
`["a", "", "b"]`, `""` into `[""]`). -/
def splitChar (c : Char) : List Char → List (List Char)
  | [] => [[]]
  | x :: xs =>
    match splitChar c xs with
    | [] => [[]]
    | g :: gs => if x = c then [] :: g :: gs else (x :: g) :: gs

/-- Python `part.split("=", 1)[1]`: everything after the first `'='`.  (Used
only under the `startswith("WSSESSIONID=")` guard, which guarantees an `'='`
is present; without one, the result is the tail of nothing, `[]`.) -/
def afterFirstEq (cs : List Char) : List Char :=
  (cs.dropWhile (fun c => c != '=')).tail

/-- The `for cookie_part in raw_cookie_string.split(";")` loop of
`_load_cookie_from_search_results` (source lines 157–167): strip each part,
uppercase it (`str.upper`, ASCII here) and test the `WSSESSIONID=` name
case-insensitively; return the first non-empty matched value; an empty
matched value lets the loop continue. -/
def harvestLoop : List (List Char) → Option String
  | [] => none
  | part :: rest =>
      let p := pyStrip part
      if "WSSESSIONID=".data.isPrefixOf (p.map Char.toUpper) then
        let value := afterFirstEq p
        if value ≠ [] then some (String.mk value) else harvestLoop rest
      else harvestLoop rest

/-- `_load_cookie_from_search_results` (source lines 139–167). -/
def _load_cookie_from_search_results (file : FileState) :
    Except PyErr (Option Json) :=
  match file with
  | .absent => .ok none
  | .unreadable => .error .osError
  | .notJson => .ok none
  | .content data => do
      let preferred_entry ← data.dictGet PREFERRED_COOKIE_KEY
      if !preferred_entry.truthy then
        pure none
      else do
        let raw ← preferred_entry.dictGet "cookies"
        if !raw.truthy then
          pure none
        else
          match raw with
          | .str s => pure ((harvestLoop (splitChar ';' s.data)).map Json.str)
          | _ => .error .attributeError    -- `.split` on a non-string

/-! ## The extractor subprocess tier -/

/-- The environment the third tier observes: which of the two candidate
extractor files exist, the exit code the subprocess would return, and the
state of the cookie file after it has run. -/
structure ScriptEnv where
  extractorExists : Bool        -- `cmu25live_extractor.py` exists
  searchExtractorExists : Bool  -- `cmu_25live_search_cookie_extractor.py` exists
  exitCode : Int
  diskAfter : FileState

/-- `_find_cookie_script` (source lines 63–75): first existing candidate, in
order; `FileNotFoundError` when neither exists. -/
def _find_cookie_script (env : ScriptEnv) : Except PyErr String :=
  if env.extractorExists then .ok "cmu25live_extractor.py"
  else if env.searchExtractorExists then .ok "cmu_25live_search_cookie_extractor.py"
  else .error (.fileNotFoundError
    ("Unable to locate a cookie extractor script. " ++
     "Expected one of: cmu25live_extractor.py, cmu_25live_search_cookie_extractor.py"))

/-- `_run_cookie_script` (source lines 104–120): locate the script, run it,
raise `RuntimeError` on a non-zero exit code. -/
def _run_cookie_script (env : ScriptEnv) : Except PyErr Unit := do
  let name ← _find_cookie_script env
  if env.exitCode ≠ 0 then
    .error (.runtimeError
      ("Cookie extractor " ++ name ++ " failed with code " ++ toString env.exitCode))
  else
    .ok ()

/-! ## The fallback chain -/

/-- Everything `get_wssessionid` observes: the two files, the extractor
environment, and the naive wall-clock seconds of `datetime.now()`. -/
structure Env where
  cookieFile : FileState
  searchCookiesFile : FileState
  script : ScriptEnv
  nowSecs : Int

/-- The outcome of `get_wssessionid` together with which later tiers were
consulted: `searchConsulted` records whether the peer-capture file was read
(tier 2 entered), `extractorAttempted` whether `_run_cookie_script` was
called (tier 3 entered). -/
structure RunResult where
  outcome : Except PyErr Json
  searchConsulted : Bool
  extractorAttempted : Bool

/-- Python truthiness of an `Optional` value (`if cookie:`). -/
def optTruthy : Option Json → Bool
  | none => false
  | some c => c.truthy

/-- `get_wssessionid` (source lines 123–136): disk reuse, then peer-capture
harvest, then extractor plus re-read; short-circuit on the first truthy
cookie; a missing cookie after a successful extractor run raises. -/
def get_wssessionid (env : Env) : RunResult :=
  match _load_cookie_from_disk env.cookieFile env.nowSecs with
  | .error e => ⟨.error e, false, false⟩
  | .ok c1 =>
    if optTruthy c1 then ⟨.ok (c1.getD .null), false, false⟩
    else
      match _load_cookie_from_search_results env.searchCookiesFile with
      | .error e => ⟨.error e, true, false⟩
      | .ok c2 =>
        if optTruthy c2 then ⟨.ok (c2.getD .null), true, false⟩
        else
          match _run_cookie_script env.script with
          | .error e => ⟨.error e, true, true⟩
          | .ok _ =>
            match _load_cookie_from_disk env.script.diskAfter env.nowSecs with
            | .error e => ⟨.error e, true, true⟩
            | .ok c3 =>
              if optTruthy c3 then ⟨.ok (c3.getD .null), true, true⟩
              else ⟨.error (.runtimeError
                     "Cookie file was not created by the extractor script"),
                    true, true⟩

/-! ## The Event Fetcher -/

/-- `get_url` (source lines 170–177). -/
def get_url (building_id day : String) : String :=
  "https://25live.collegenet.com/25live/data/cmu/run/home/calendar/" ++
  "calendardata.json?mode=pro&obj_cache_accl=0&space_query_id=" ++
  building_id ++ "&start_dt=" ++ day ++ "&end_dt=" ++ day ++
  "&page=1&comptype=home&sort=evdates_event_name&compsubject=location" ++
  "&last_id=-1&caller=pro-CalendarService.getCalendarDayPage"

/-- One normalized output record (the dict built at source lines 207–216). -/
structure EventRecord where
  name : String
  location : Json
  startTime : Json
  endTime : Json
  date : String
  buildingID : String

/-- The outcome of the HTTP round trip of `fetch_building_events`, as far as
the rest of the function can observe it. -/
inductive HttpResult where
  | requestException    -- timeout, connection error, or non-2xx (`raise_for_status`)
  | invalidJson         -- 2xx, but `response.json()` raises `ValueError`
  | body (data : Json)  -- 2xx with this parsed JSON body

/-- Building one record for one `location` sub-entry (the dict literal at
source lines 207–216, fields evaluated in source order). -/
def processLocation (building_id day : String) (event loc : Json) :
    Except PyErr EventRecord := do
  let ename ← event.dictGetD "event_name" (.str "")
  let item ← loc.dictGet "itemName"
  let st ← event.dictGet "rsrv_start_dt"
  let en ← event.dictGet "rsrv_end_dt"
  pure ⟨Json.pyStr ename, item, st, en, day, building_id⟩

/-- The inner `for location in event.get("subject", []):` loop. -/
def processLocations (building_id day : String) (event : Json) :
    List Json → Except PyErr (List EventRecord)
  | [] => .ok []
  | l :: rest => do
      let r ← processLocation building_id day event l
      let rs ← processLocations building_id day event rest
      pure (r :: rs)

/-- One reservation entry: iterate its `subject` sub-entries (defaulting to
`[]`) and emit one record per sub-entry. -/
def processEntry (building_id day : String) (event : Json) :
    Except PyErr (List EventRecord) := do
  let subj ← event.dictGetD "subject" (.arr [])
  let locs ← subj.pyIterate
  processLocations building_id day event locs

/-- The outer `for event in rsrv_entries:` loop. -/
def processEntries (building_id day : String) :
    List Json → Except PyErr (List EventRecord)
  | [] => .ok []
  | e :: rest => do
      let rs ← processEntry building_id day e
      let more ← processEntries building_id day rest
      pure (rs ++ more)

/-- The post-HTTP part of `fetch_building_events` (source lines 200–217):
`data.get("root", {}).get("events", [{}])[0].get("rsrv")`, the truthiness
check, and the two nested loops. -/
def parse_calendar_body (building_id day : String) (data : Json) :
    Except PyErr (List EventRecord) := do
  let root ← data.dictGetD "root" (.obj [])
  let events ← root.dictGetD "events" (.arr [.obj []])
  let first ← events.index0
  let rsrv ← first.dictGet "rsrv"
  if !rsrv.truthy then
    pure []
  else do
    let entries ← rsrv.pyIterate
    processEntries building_id day entries

/-- `fetch_building_events` (source lines 180–217): a `RequestException` or a
non-JSON body is caught and becomes `[]`; otherwise the body is parsed.  The
credential only decorates the request, not the parsing. -/
def fetch_building_events (building_id day : String) (_wssessionid : Json)
    (resp : HttpResult) : Except PyErr (List EventRecord) :=
  match resp with
  | .requestException => .ok []
  | .invalidJson => .ok []
  | .body data => parse_calendar_body building_id day data

/-! ## The Fetch Orchestrator -/

/-- Observable events of one run of the orchestrator: the single credential
acquisition and each `fetch_building_events` call with its arguments. -/
inductive RunAction where
  | acquireCredential
  | fetchEvents (building_id day : String)
  deriving Repr, DecidableEq

/-- Python `x[:20]` (the cookie preview sliced into the progress message at
source line 223): strings and lists slice, everything else raises
`TypeError`. -/
def pySliceTo20 : Json → Except PyErr Json
  | .str s => .ok (.str (String.mk (s.data.take 20)))
  | .arr xs => .ok (.arr (xs.take 20))
  | _ => .error .typeError

/-- The world `get_current_week_events` runs in: the acquisition environment,
today's day number, and the upstream's behavior for each (building, day)
request. -/
structure World where
  env : Env
  today : Int
  response : String → String → HttpResult

/-- The `for building_id in BUILDING_IDS: for day in week_dates:` double loop
(source lines 230–234), flattened to the pair list it iterates; a raised
exception aborts the remaining iterations.  Also returns the trace of fetch
calls performed. -/
def runPairs (response : String → String → HttpResult) (cred : Json) :
    List (String × String) → Except PyErr (List EventRecord) × List RunAction
  | [] => (.ok [], [])
  | (b, d) :: rest =>
    match fetch_building_events b d cred (response b d) with
    | .error e => (.error e, [.fetchEvents b d])
    | .ok evs =>
      let r := runPairs response cred rest
      (r.1.map (evs ++ ·), .fetchEvents b d :: r.2)

/-- `get_current_week_events` (source lines 220–237): acquire one credential
(whose preview slice `wssessionid[:20]` is printed), compute the week once,
then iterate buildings in declared order and days in ascending order,
extending one accumulator.  The `time.sleep` between requests has no
observable effect in the model. -/
def get_current_week_events (w : World) :
    Except PyErr (List EventRecord) × List RunAction :=
  match (get_wssessionid w.env).outcome with
  | .error e => (.error e, [.acquireCredential])
  | .ok wssessionid =>
    match pySliceTo20 wssessionid with
    | .error e => (.error e, [.acquireCredential])
    | .ok _ =>
      let week_dates := get_current_week_dates w.today
      let r := runPairs w.response wssessionid
        (BUILDING_IDS.flatMap fun b => week_dates.map fun d => (b, d))
      (r.1, .acquireCredential :: r.2)

/-! ## Helper lemmas -/

/-- A cookie actually returned by the disk tier passed the `if not cookie:`
check, so it is truthy. -/
lemma disk_some_truthy {f : FileState} {now : Int} {c : Json}
    (h : _load_cookie_from_disk f now = .ok (some c)) : c.truthy = true := by
  cases f with
  | absent => simp [_load_cookie_from_disk] at h
  | unreadable => simp [_load_cookie_from_disk] at h
  | notJson => simp [_load_cookie_from_disk] at h
  | content data =>
    simp only [_load_cookie_from_disk, bind, Except.bind, pure, Except.pure] at h
    repeat' split at h
    all_goals simp_all

/-- A value returned by the harvest loop passed its `if value:` check. -/
lemma harvestLoop_some_ne {ps : List (List Char)} {v : String}
    (h : harvestLoop ps = some v) : v ≠ "" := by
  induction ps with
  | nil => simp [harvestLoop] at h
  | cons p rest ih =>
    simp only [harvestLoop] at h
    split at h
    · split at h <;> rename_i hval
      · rw [Option.some.injEq] at h
        subst h
        intro heq
        exact hval (by simpa using congrArg String.data heq)
      · exact ih h
    · exact ih h

/-- A cookie actually returned by the peer-capture tier is truthy. -/
lemma search_some_truthy {f : FileState} {c : Json}
    (h : _load_cookie_from_search_results f = .ok (some c)) : c.truthy = true := by
  cases f with
  | absent => simp [_load_cookie_from_search_results] at h
  | unreadable => simp [_load_cookie_from_search_results] at h
  | notJson => simp [_load_cookie_from_search_results] at h
  | content data =>
    simp only [_load_cookie_from_search_results, bind, Except.bind, pure, Except.pure] at h
    repeat' split at h
    all_goals simp_all
    obtain ⟨v, hv, rfl⟩ := h
    simpa [Json.truthy] using harvestLoop_some_ne hv

/-! ## Claim theorems -/

/-- C9: for every value of `today`, `get_current_week_dates` returns exactly
7 ISO date strings rendering strictly consecutive ascending calendar days
`monday, monday+1, …, monday+6`, where `monday` is the Monday (weekday 0) of
the week containing `today`, and today's own ISO date is in the list. -/
theorem week_window_seven_consecutive (today : Int) :
    ∃ monday : Int,
      weekday monday = 0 ∧
      monday ≤ today ∧ today ≤ monday + 6 ∧
      (get_current_week_dates today).length = 7 ∧
      get_current_week_dates today
        = (List.range 7).map (fun i : Nat => dateIso (monday + (i : Int))) ∧
      dateIso today ∈ get_current_week_dates today := by
  have h0 : 0 ≤ today % 7 := Int.emod_nonneg today (by norm_num)
  have h7 : today % 7 < 7 := Int.emod_lt_of_pos today (by norm_num)
  refine ⟨today - weekday today, ?_, ?_, ?_, ?_, rfl, ?_⟩
  · unfold weekday
    omega
  · unfold weekday
    omega
  · unfold weekday
    omega
  · rfl
  · unfold get_current_week_dates weekday
    have hmem : (today % 7).toNat ∈ List.range 7 := by
      rw [List.mem_range]
      omega
    have hmap : dateIso (today - today % 7 + (((today % 7).toNat : Nat) : Int)) ∈
        List.map (fun i : Nat => dateIso (today - today % 7 + (i : Int))) (List.range 7) :=
      List.mem_map_of_mem (fun i : Nat => dateIso (today - today % 7 + (i : Int))) hmem
    rw [show today - today % 7 + (((today % 7).toNat : Nat) : Int) = today by omega] at hmap
    exact hmap

/-- C5: a well-formed stored credential (string cookie, naive parseable
timestamp) is returned by the disk load exactly when its age
`now - extracted_at` is strictly below 12 hours (43200 seconds). -/
theorem cookie_freshness_strict_12h (nowSecs : Int) (ts cookie : String)
    (dt : PyDatetime) (hparse : _parse_datetime ts = some dt)
    (hnaive : dt.tz = none) (hcookie : cookie ≠ "") :
    _load_cookie_from_disk
        (.content (.obj [("extracted_at", .str ts), ("WSSESSIONID", .str cookie)]))
        nowSecs = .ok (some (.str cookie))
      ↔ nowSecs - dt.seconds < 43200 := by
  have hts : ts ≠ "" := by
    rintro rfl
    have hempty : _parse_datetime "" = none := rfl
    rw [hempty] at hparse
    exact Option.noConfusion hparse
  have h1 : Json.dictGet
      (.obj [("extracted_at", .str ts), ("WSSESSIONID", .str cookie)])
      "extracted_at" = .ok (.str ts) := rfl
  have h2 : Json.dictGet
      (.obj [("extracted_at", .str ts), ("WSSESSIONID", .str cookie)])
      "WSSESSIONID" = .ok (.str cookie) := rfl
  simp only [_load_cookie_from_disk, bind, Except.bind, pure, Except.pure,
    h1, h2, parseDatetimeJson, hparse]
  rw [show ((!(Json.str cookie).truthy || !(Json.str ts).truthy) = false) from by
    simp [Json.truthy, hcookie, hts]]
  simp only [Bool.false_eq_true, if_false, dtSub, hnaive, COOKIE_MAX_AGE_HOURS]
  split <;> rename_i hlt
  · simp only [eq_self_iff_true, true_iff]
    omega
  · constructor
    · intro hcontra
      simp at hcontra
    · intro hlt'
      omega

/-- Seconds value of the concrete timestamp `2026-10-01T00:00:00` used by the
freshness witness. -/
def tsSecsW : Int := daysFromCivil 2026 10 1 * 86400

/-- Witness for `cookie_freshness_strict_12h`: at age 11h59m (43140 s) the
stored cookie is returned; at age 12h01m (43260 s) it is not. -/
theorem cookie_freshness_strict_12h_witness :
    _load_cookie_from_disk
        (.content (.obj [("extracted_at", .str "2026-10-01T00:00:00"),
                         ("WSSESSIONID", .str "abc")]))
        (tsSecsW + 43140) = .ok (some (.str "abc")) ∧
    ¬ (_load_cookie_from_disk
        (.content (.obj [("extracted_at", .str "2026-10-01T00:00:00"),
                         ("WSSESSIONID", .str "abc")]))
        (tsSecsW + 43260) = .ok (some (.str "abc"))) := by
  have hparse : _parse_datetime "2026-10-01T00:00:00" = some ⟨tsSecsW, none⟩ := rfl
  constructor
  · refine (cookie_freshness_strict_12h (tsSecsW + 43140) _ "abc" ⟨tsSecsW, none⟩
      hparse rfl (by simp)).mpr ?_
    show tsSecsW + 43140 - tsSecsW < 43200
    omega
  · intro h
    have hlt := (cookie_freshness_strict_12h (tsSecsW + 43260) _ "abc" ⟨tsSecsW, none⟩
      hparse rfl (by simp)).mp h
    have hlt' : tsSecsW + 43260 - tsSecsW < 43200 := hlt
    omega

/-- C2: evaluating `_load_cookie_from_disk` on inputs the claim covers shows
three uncaught exceptions: a stored timestamp with a trailing `"Z"` makes the
freshness subtraction mix an aware and a naive datetime and raise
`TypeError`; a JSON document that is not an object makes `data.get` raise
`AttributeError`; an unreadable file raises `OSError` (only `JSONDecodeError`
is caught). -/
theorem load_cookie_raises_on_Z_and_nonobject :
    _load_cookie_from_disk
        (.content (.obj [("extracted_at", .str "2026-10-11T20:00:00Z"),
                         ("WSSESSIONID", .str "abc")]))
        (daysFromCivil 2026 10 12 * 86400) = .error .typeError ∧
    _load_cookie_from_disk (.content (.arr [.num 1]))
        (daysFromCivil 2026 10 12 * 86400) = .error .attributeError ∧
    _load_cookie_from_disk .unreadable
        (daysFromCivil 2026 10 12 * 86400) = .error .osError :=
  ⟨rfl, rfl, rfl⟩

/-- C3: the fallback chain short-circuits.  If the disk tier returns a
credential, the peer-capture file is not consulted and the extractor is not
attempted, and that credential is the outcome; if the disk tier returns
no credential and the peer-capture tier returns one, the extractor is not
attempted and the harvested credential is the outcome. -/
theorem fallback_short_circuit (env : Env) :
    (∀ c : Json, _load_cookie_from_disk env.cookieFile env.nowSecs = .ok (some c) →
       get_wssessionid env = ⟨.ok c, false, false⟩) ∧
    (∀ c : Json, _load_cookie_from_disk env.cookieFile env.nowSecs = .ok none →
       _load_cookie_from_search_results env.searchCookiesFile = .ok (some c) →
       get_wssessionid env = ⟨.ok c, true, false⟩) := by
  constructor
  · intro c h
    have ht := disk_some_truthy h
    simp [get_wssessionid, h, optTruthy, ht]
  · intro c h1 h2
    have ht := search_some_truthy h2
    simp [get_wssessionid, h1, h2, optTruthy, ht]

/-- The concrete fresh cookie file used by several witnesses (extracted at
2026-10-12T00:00:00, read at the same instant). -/
def freshFileW : FileState :=
  .content (.obj [("extracted_at", .str "2026-10-12T00:00:00"),
                  ("WSSESSIONID", .str "abc")])

/-- The wall-clock instant 2026-10-12T00:00:00 used by the witnesses. -/
def nowSecsW : Int := daysFromCivil 2026 10 12 * 86400

/-- Witness for `fallback_short_circuit`: with a fresh cookie on disk, the
chain returns it without consulting the peer-capture file or the
extractor. -/
theorem fallback_short_circuit_witness :
    get_wssessionid ⟨freshFileW, .absent, ⟨false, false, 0, .absent⟩, nowSecsW⟩
      = ⟨.ok (.str "abc"), false, false⟩ :=
  (fallback_short_circuit ⟨freshFileW, .absent, ⟨false, false, 0, .absent⟩, nowSecsW⟩).1
    (.str "abc") rfl

/-- C4 counterexample: a fourth fatal case beyond the claim's three.  With a
cookie-store file whose JSON document is a list, the acquisition subsystem
raises `AttributeError` even though an extractor candidate exists, it would
exit zero, and the post-extractor store read would yield a usable credential
(and the extractor is not even attempted). -/
theorem acquisition_fatal_beyond_three_cases :
    (get_wssessionid ⟨.content (.arr [.num 1]), .absent,
        ⟨true, false, 0, freshFileW⟩, nowSecsW⟩).outcome
      = .error .attributeError ∧
    (get_wssessionid ⟨.content (.arr [.num 1]), .absent,
        ⟨true, false, 0, freshFileW⟩, nowSecsW⟩).extractorAttempted = false ∧
    _load_cookie_from_disk freshFileW nowSecsW = .ok (some (.str "abc")) :=
  ⟨rfl, rfl, rfl⟩

/-- C4 (amended): provided the disk and peer-capture loads both return "no
credential" without raising, the acquisition subsystem fails fatally in
exactly the claim's three cases — no candidate extractor file, non-zero
extractor exit, or a post-extractor store read that still yields no
credential — and succeeds when the post-extractor read yields one. -/
theorem acquisition_fatal_cases (env : Env)
    (h1 : _load_cookie_from_disk env.cookieFile env.nowSecs = .ok none)
    (h2 : _load_cookie_from_search_results env.searchCookiesFile = .ok none) :
    (env.script.extractorExists = false → env.script.searchExtractorExists = false →
       (get_wssessionid env).outcome = .error (.fileNotFoundError
         ("Unable to locate a cookie extractor script. " ++
          "Expected one of: cmu25live_extractor.py, cmu_25live_search_cookie_extractor.py"))) ∧
    ((env.script.extractorExists = true ∨ env.script.searchExtractorExists = true) →
       env.script.exitCode ≠ 0 →
       ∃ msg, (get_wssessionid env).outcome = .error (.runtimeError msg)) ∧
    ((env.script.extractorExists = true ∨ env.script.searchExtractorExists = true) →
       env.script.exitCode = 0 →
       _load_cookie_from_disk env.script.diskAfter env.nowSecs = .ok none →
       (get_wssessionid env).outcome = .error (.runtimeError
         "Cookie file was not created by the extractor script")) ∧
    (∀ c : Json, (env.script.extractorExists = true ∨ env.script.searchExtractorExists = true) →
       env.script.exitCode = 0 →
       _load_cookie_from_disk env.script.diskAfter env.nowSecs = .ok (some c) →
       (get_wssessionid env).outcome = .ok c) := by
  refine ⟨?_, ?_, ?_, ?_⟩
  · intro hA hB
    simp [get_wssessionid, h1, h2, optTruthy, _run_cookie_script, _find_cookie_script,
      hA, hB, bind, Except.bind]
  · intro hfound hexit
    rcases hfound with hA | hB
    · refine ⟨"Cookie extractor cmu25live_extractor.py failed with code " ++
        toString env.script.exitCode, ?_⟩
      simp [get_wssessionid, h1, h2, optTruthy, _run_cookie_script,
        _find_cookie_script, hA, hexit, bind, Except.bind]
    · by_cases hA : env.script.extractorExists = true
      · refine ⟨"Cookie extractor cmu25live_extractor.py failed with code " ++
          toString env.script.exitCode, ?_⟩
        simp [get_wssessionid, h1, h2, optTruthy, _run_cookie_script,
          _find_cookie_script, hA, hexit, bind, Except.bind]
      · refine ⟨"Cookie extractor cmu_25live_search_cookie_extractor.py failed with code " ++
          toString env.script.exitCode, ?_⟩
        simp [get_wssessionid, h1, h2, optTruthy, _run_cookie_script,
          _find_cookie_script, hA, hB, hexit, bind, Except.bind]
  · intro hfound hexit h3
    have hrun : _run_cookie_script env.script = .ok () := by
      rcases hfound with hA | hB
      · simp [_run_cookie_script, _find_cookie_script, hA, hexit, bind, Except.bind]
      · by_cases hA : env.script.extractorExists = true
        · simp [_run_cookie_script, _find_cookie_script, hA, hexit, bind, Except.bind]
        · simp [_run_cookie_script, _find_cookie_script, hA, hB, hexit, bind, Except.bind]
    simp [get_wssessionid, h1, h2, h3, optTruthy, hrun]
  · intro c hfound hexit h3
    have hrun : _run_cookie_script env.script = .ok () := by
      rcases hfound with hA | hB
      · simp [_run_cookie_script, _find_cookie_script, hA, hexit, bind, Except.bind]
      · by_cases hA : env.script.extractorExists = true
        · simp [_run_cookie_script, _find_cookie_script, hA, hexit, bind, Except.bind]
        · simp [_run_cookie_script, _find_cookie_script, hA, hB, hexit, bind, Except.bind]
    have ht := disk_some_truthy h3
    simp [get_wssessionid, h1, h2, h3, optTruthy, hrun, ht]

/-- Witness for `acquisition_fatal_cases`: with both loads yielding nothing
and no candidate extractor file, the run aborts with the
`FileNotFoundError`. -/
theorem acquisition_fatal_cases_witness :
    (get_wssessionid ⟨.absent, .absent, ⟨false, false, 0, .absent⟩, nowSecsW⟩).outcome
      = .error (.fileNotFoundError
        ("Unable to locate a cookie extractor script. " ++
         "Expected one of: cmu25live_extractor.py, cmu_25live_search_cookie_extractor.py")) :=
  (acquisition_fatal_cases ⟨.absent, .absent, ⟨false, false, 0, .absent⟩, nowSecsW⟩
    rfl rfl).1 rfl rfl

/-- Looking a key up in an empty dict yields nothing. -/
lemma lookup_nil (k : String) : Json.lookup [] k = none := rfl

/-- Looking the only key of a one-entry dict up yields its value. -/
lemma lookup_singleton (k : String) (v : Json) :
    Json.lookup [(k, v)] k = some v := by
  simp [Json.lookup]

/-- C1 counterexample: a response body whose `events` list is present but
empty makes `data.get("root", {}).get("events", [{}])[0]` raise
`IndexError` — the fetch does not return the empty list there. -/
theorem fetch_raises_on_empty_events_list :
    fetch_building_events "618852" "2026-10-12" (.str "abc")
        (.body (.obj [("root", .obj [("events", .arr [])])])) = .error .indexError ∧
    ¬ (fetch_building_events "618852" "2026-10-12" (.str "abc")
        (.body (.obj [("root", .obj [("events", .arr [])])])) = .ok []) := by
  refine ⟨rfl, ?_⟩
  intro h
  rw [show fetch_building_events "618852" "2026-10-12" (.str "abc")
      (.body (.obj [("root", .obj [("events", .arr [])])])) = .error .indexError from rfl] at h
  exact Except.noConfusion h

/-- C1 (amended): the fetch converts network failures and non-JSON bodies to
`[]`, and returns `[]` when the body object lacks `root`, when the `root`
object lacks `events`, or when the first `events` element's `rsrv` is
missing, `null`, or an empty list; but an *empty* `events` list raises
`IndexError`, and a non-object body or non-object `root` value raises
`AttributeError`, so those failures abort instead of yielding `[]`. -/
theorem fetch_error_containment (bid day : String) (cred : Json) :
    fetch_building_events bid day cred .requestException = .ok [] ∧
    fetch_building_events bid day cred .invalidJson = .ok [] ∧
    (∀ kvs, Json.lookup kvs "root" = none →
       fetch_building_events bid day cred (.body (.obj kvs)) = .ok []) ∧
    (∀ rkvs, Json.lookup rkvs "events" = none →
       fetch_building_events bid day cred
         (.body (.obj [("root", .obj rkvs)])) = .ok []) ∧
    (∀ ekvs rest, (Json.lookup ekvs "rsrv" = none ∨
        Json.lookup ekvs "rsrv" = some .null ∨
        Json.lookup ekvs "rsrv" = some (.arr [])) →
       fetch_building_events bid day cred
         (.body (.obj [("root", .obj [("events", .arr (.obj ekvs :: rest))])]))
         = .ok []) ∧
    fetch_building_events bid day cred
      (.body (.obj [("root", .obj [("events", .arr [])])])) = .error .indexError ∧
    fetch_building_events bid day cred (.body (.arr [])) = .error .attributeError ∧
    fetch_building_events bid day cred
      (.body (.obj [("root", .null)])) = .error .attributeError := by
  refine ⟨rfl, rfl, ?_, ?_, ?_, rfl, rfl, rfl⟩
  · intro kvs h
    simp [fetch_building_events, parse_calendar_body, Json.dictGetD, Json.dictGet,
      h, lookup_nil, bind, Except.bind, pure, Except.pure, Json.index0, Json.truthy]
  · intro rkvs h
    simp [fetch_building_events, parse_calendar_body, Json.dictGetD, Json.dictGet,
      h, lookup_nil, lookup_singleton, bind, Except.bind, pure, Except.pure,
      Json.index0, Json.truthy]
  · intro ekvs rest h
    rcases h with h | h | h <;>
      simp [fetch_building_events, parse_calendar_body, Json.dictGetD, Json.dictGet,
        h, lookup_singleton, bind, Except.bind, pure, Except.pure,
        Json.index0, Json.truthy]

/-- Witness for `fetch_error_containment`: the quantified empty-result cases
instantiated at a body with no `root`, a `root` with no `events`, and a
first `events` element with no `rsrv`. -/
theorem fetch_error_containment_witness :
    fetch_building_events "618852" "2026-10-12" (.str "abc")
        (.body (.obj [])) = .ok [] ∧
    fetch_building_events "618852" "2026-10-12" (.str "abc")
        (.body (.obj [("root", .obj [])])) = .ok [] ∧
    fetch_building_events "618852" "2026-10-12" (.str "abc")
        (.body (.obj [("root", .obj [("events", .arr [.obj []])])])) = .ok [] :=
  ⟨(fetch_error_containment "618852" "2026-10-12" (.str "abc")).2.2.1 [] rfl,
   (fetch_error_containment "618852" "2026-10-12" (.str "abc")).2.2.2.1 [] rfl,
   (fetch_error_containment "618852" "2026-10-12" (.str "abc")).2.2.2.2.1 [] [] (.inl rfl)⟩

/-- C10: the fetch reads reservation entries only from the first element of
the `events` list — any later elements can be dropped without changing the
result. -/
theorem only_first_events_element (bid day : String) (cred e0 : Json)
    (rest : List Json) :
    fetch_building_events bid day cred
        (.body (.obj [("root", .obj [("events", .arr (e0 :: rest))])])) =
      fetch_building_events bid day cred
        (.body (.obj [("root", .obj [("events", .arr [e0])])])) := rfl

/-- The inner location loop over a list of location dicts succeeds and maps
each to its record. -/
lemma processLocations_obj (bid day : String) (ekvs : List (String × Json)) :
    ∀ locs : List (List (String × Json)),
      processLocations bid day (.obj ekvs) (locs.map Json.obj) =
        .ok (locs.map fun lk =>
          { name := Json.pyStr ((Json.lookup ekvs "event_name").getD (.str ""))
            location := (Json.lookup lk "itemName").getD .null
            startTime := (Json.lookup ekvs "rsrv_start_dt").getD .null
            endTime := (Json.lookup ekvs "rsrv_end_dt").getD .null
            date := day
            buildingID := bid })
  | [] => rfl
  | lk :: rest => by
      simp [processLocations, processLocation, Json.dictGetD, Json.dictGet,
        bind, Except.bind, pure, Except.pure,
        processLocations_obj bid day ekvs rest]

/-- C7: a reservation entry whose `subject` resolves to a list of `k`
location dicts yields exactly `k` records, all sharing the entry's name,
start, end, date and building verbatim and differing only in `location`
(the sub-entry's `itemName`); `k = 0` yields zero records. -/
theorem per_entry_location_records (bid day : String)
    (ekvs : List (String × Json)) (locs : List (List (String × Json)))
    (hsubj : Json.dictGetD (.obj ekvs) "subject" (.arr [])
               = .ok (.arr (locs.map Json.obj))) :
    processEntry bid day (.obj ekvs) =
      .ok (locs.map fun lk =>
        { name := Json.pyStr ((Json.lookup ekvs "event_name").getD (.str ""))
          location := (Json.lookup lk "itemName").getD .null
          startTime := (Json.lookup ekvs "rsrv_start_dt").getD .null
          endTime := (Json.lookup ekvs "rsrv_end_dt").getD .null
          date := day
          buildingID := bid }) ∧
    (∀ recs, processEntry bid day (.obj ekvs) = .ok recs →
       recs.length = locs.length) := by
  have hmain : processEntry bid day (.obj ekvs) =
      .ok (locs.map fun lk =>
        { name := Json.pyStr ((Json.lookup ekvs "event_name").getD (.str ""))
          location := (Json.lookup lk "itemName").getD .null
          startTime := (Json.lookup ekvs "rsrv_start_dt").getD .null
          endTime := (Json.lookup ekvs "rsrv_end_dt").getD .null
          date := day
          buildingID := bid }) := by
    simp [processEntry, hsubj, Json.pyIterate, bind, Except.bind,
      processLocations_obj bid day ekvs locs]
  refine ⟨hmain, ?_⟩
  intro recs hr
  rw [hmain] at hr
  rw [← Except.ok.inj hr]
  simp

/-- The reservation entry used by the C7 witness: two location
sub-entries. -/
def eventKvsW : List (String × Json) :=
  [("event_name", .str "Climbing"),
   ("rsrv_start_dt", .str "2026-10-12T10:00:00"),
   ("rsrv_end_dt", .str "2026-10-12T11:00:00"),
   ("subject", .arr [.obj [("itemName", .str "Wiegand Gym")],
                     .obj [("itemName", .str "Cut")]])]

/-- Witness for `per_entry_location_records`: the two-location entry yields
exactly two records differing only in `location`. -/
theorem per_entry_location_records_witness :
    processEntry "583845" "2026-10-12" (.obj eventKvsW) =
      .ok [⟨"Climbing", .str "Wiegand Gym", .str "2026-10-12T10:00:00",
            .str "2026-10-12T11:00:00", "2026-10-12", "583845"⟩,
           ⟨"Climbing", .str "Cut", .str "2026-10-12T10:00:00",
            .str "2026-10-12T11:00:00", "2026-10-12", "583845"⟩] :=
  (per_entry_location_records "583845" "2026-10-12" eventKvsW
    [[("itemName", .str "Wiegand Gym")], [("itemName", .str "Cut")]] rfl).1

/-- Parts for which the harvest loop finds nothing: every part either fails
the case-insensitive `WSSESSIONID=` test or has an empty value. -/
lemma harvestLoop_none (ps : List (List Char))
    (h : ∀ p ∈ ps,
        ¬ ("WSSESSIONID=".data.isPrefixOf ((pyStrip p).map Char.toUpper)) ∨
        afterFirstEq (pyStrip p) = []) :
    harvestLoop ps = none := by
  induction ps with
  | nil => rfl
  | cons p rest ih =>
    have hp := h p (by simp)
    have hrest : harvestLoop rest = none :=
      ih (fun q hq => h q (by simp [hq]))
    by_cases hc : "WSSESSIONID=".data.isPrefixOf ((pyStrip p).map Char.toUpper)
    · rcases hp with hp | hp
      · exact absurd hc hp
      · simp [harvestLoop, hc, hp, hrest]
    · simp [harvestLoop, hc, hrest]

/-- C6: peer-capture harvesting splits the `athletics` entry's cookie string
on `';'`, strips each part, matches `WSSESSIONID=` case-insensitively and
returns the value: `"A=1; WSSESSIONID=abc123; B=2"` yields `abc123`, a
lowercase `wssessionid=abc123` also matches, and if no part matches (or all
matched values are empty) the tier yields no credential. -/
theorem harvest_cookie_value :
    _load_cookie_from_search_results
        (.content (.obj [("athletics",
          .obj [("cookies", .str "A=1; WSSESSIONID=abc123; B=2")])]))
      = .ok (some (.str "abc123")) ∧
    _load_cookie_from_search_results
        (.content (.obj [("athletics",
          .obj [("cookies", .str "wssessionid=abc123")])]))
      = .ok (some (.str "abc123")) ∧
    ∀ s : String,
      (∀ p ∈ splitChar ';' s.data,
          ¬ ("WSSESSIONID=".data.isPrefixOf ((pyStrip p).map Char.toUpper)) ∨
          afterFirstEq (pyStrip p) = []) →
      _load_cookie_from_search_results
          (.content (.obj [("athletics", .obj [("cookies", .str s)])]))
        = .ok none := by
  refine ⟨rfl, rfl, ?_⟩
  intro s h
  by_cases hs : s = ""
  · subst hs
    rfl
  · simp [_load_cookie_from_search_results, Json.dictGet, Json.dictGetD,
      Json.lookup, PREFERRED_COOKIE_KEY, bind, Except.bind, pure, Except.pure,
      Json.truthy, hs, harvestLoop_none _ h]

/-- Witness for `harvest_cookie_value`: a cookie string with no
`WSSESSIONID` part harvests nothing. -/
theorem harvest_cookie_value_witness :
    _load_cookie_from_search_results
        (.content (.obj [("athletics", .obj [("cookies", .str "A=1; B=2")])]))
      = .ok none :=
  harvest_cookie_value.2.2 "A=1; B=2" (by decide)

/-- When every request parses cleanly, the double loop visits every pair in
order and concatenates the per-pair results in that order. -/
lemma runPairs_all_ok (resp : String → String → HttpResult) (cred : Json)
    (res : String → String → List EventRecord)
    (hres : ∀ b d, fetch_building_events b d cred (resp b d) = .ok (res b d)) :
    ∀ ps : List (String × String),
      runPairs resp cred ps =
        (.ok (ps.flatMap fun p => res p.1 p.2),
         ps.map fun p => RunAction.fetchEvents p.1 p.2)
  | [] => rfl
  | (b, d) :: rest => by
      simp [runPairs, hres b d, runPairs_all_ok resp cred res hres rest, Except.map]

/-- C8: with a successfully acquired string credential and per-pair responses
that all parse (possibly to `[]`), the orchestrator acquires the credential
exactly once, before any fetch, then performs one fetch per (building, day)
pair — buildings in declared order, days in ascending order — and the result
is the concatenation of the per-pair lists in that same order (so one pair's
empty contribution leaves every other pair's records in place, and an empty
total is a valid non-error outcome). -/
theorem orchestrator_deterministic_iteration (w : World) (s : String)
    (res : String → String → List EventRecord)
    (hacq : (get_wssessionid w.env).outcome = .ok (.str s))
    (hres : ∀ b d, fetch_building_events b d (.str s) (w.response b d) = .ok (res b d)) :
    get_current_week_events w =
      (.ok ((BUILDING_IDS.flatMap fun b =>
               (get_current_week_dates w.today).map fun d => (b, d)).flatMap
             fun p => res p.1 p.2),
       .acquireCredential ::
         (BUILDING_IDS.flatMap fun b =>
            (get_current_week_dates w.today).map fun d => (b, d)).map
           fun p => RunAction.fetchEvents p.1 p.2) := by
  simp [get_current_week_events, hacq, pySliceTo20,
    runPairs_all_ok w.response (.str s) res hres]

/-- The world used by the orchestrator witness: fresh disk credential, every
upstream request failing at the network layer (hence contributing `[]`). -/
def worldW : World :=
  ⟨⟨freshFileW, .absent, ⟨false, false, 0, .absent⟩, nowSecsW⟩,
   daysFromCivil 2026 10 14, fun _ _ => .requestException⟩

/-- Witness for `orchestrator_deterministic_iteration`: all 77 requests fail
and are isolated, the run still succeeds with the concatenation of 77 empty
contributions and the full ordered trace. -/
theorem orchestrator_deterministic_iteration_witness :
    get_current_week_events worldW =
      (.ok ((BUILDING_IDS.flatMap fun b =>
               (get_current_week_dates worldW.today).map fun d => (b, d)).flatMap
             fun _ => ([] : List EventRecord)),
       .acquireCredential ::
         (BUILDING_IDS.flatMap fun b =>
            (get_current_week_dates worldW.today).map fun d => (b, d)).map
           fun p => RunAction.fetchEvents p.1 p.2) :=
  orchestrator_deterministic_iteration worldW "abc" (fun _ _ => []) rfl (fun _ _ => rfl)
